import Mathlib

/-!
Verification of the app-monitor program (`main.go`): the failure/recovery
state machine (`sendAlert`, `sendRecoveryNotice`), the probe classification
(`checkApplication`), and the webhook channel (`sendWebhook`,
`generateWebhookSignature`, JSON marshalling of `WebhookPayload`).

Bytes are modelled as `Nat` values below 256, Go `int` fields as `Int`,
and the per-application failure counter (a Go `map[string]int` whose
missing keys read as 0) as a total function `String → Nat`.
External effects (SMTP delivery, HTTP transport, wall-clock time) enter as
explicit parameters; emitted notification events and log lines are returned
as lists.
-/

/-- UTF-8 encoding of one Unicode scalar value (as in Go's string-to-bytes
conversion). -/
def utf8EncodeChar (n : Nat) : List Nat :=
  if n < 128 then [n]
  else if n < 2048 then [192 + n / 64, 128 + n % 64]
  else if n < 65536 then [224 + n / 4096, 128 + n / 64 % 64, 128 + n % 64]
  else [240 + n / 262144, 128 + n / 4096 % 64, 128 + n / 64 % 64, 128 + n % 64]

/-- UTF-8 byte sequence of a string, the `[]byte(s)` conversion of Go. -/
def utf8Encode (s : String) : List Nat :=
  s.toList.foldr (fun c acc => utf8EncodeChar c.toNat ++ acc) []

/-- Lowercase hex encoding of a byte list, as Go's `hex.EncodeToString`
(its digit table is `0123456789abcdef`). -/
def hexEncodeBytes (bs : List Nat) : String :=
  String.mk (bs.foldr (fun b acc => Nat.digitChar (b / 16) :: Nat.digitChar (b % 16) :: acc) [])

/-- The sixteen characters that can appear in a lowercase hex encoding. -/
def hexAlphabet : List Char :=
  "0123456789abcdef".toList

-- SHA-256 (FIPS 180-4), the hash behind Go's `crypto/sha256`, over byte
-- lists; all words are `Nat` reduced modulo 2^32.

/-- 32-bit right rotation. -/
def rotr32 (x n : Nat) : Nat := ((x >>> n) ||| (x <<< (32 - n))) % 4294967296

/-- SHA-256 message-schedule sigma-0. -/
def ssig0 (x : Nat) : Nat := (rotr32 x 7) ^^^ (rotr32 x 18) ^^^ (x >>> 3)

/-- SHA-256 message-schedule sigma-1. -/
def ssig1 (x : Nat) : Nat := (rotr32 x 17) ^^^ (rotr32 x 19) ^^^ (x >>> 10)

/-- SHA-256 compression Sigma-0. -/
def bsig0 (x : Nat) : Nat := (rotr32 x 2) ^^^ (rotr32 x 13) ^^^ (rotr32 x 22)

/-- SHA-256 compression Sigma-1. -/
def bsig1 (x : Nat) : Nat := (rotr32 x 6) ^^^ (rotr32 x 11) ^^^ (rotr32 x 25)

/-- SHA-256 choice function. -/
def sha256Ch (x y z : Nat) : Nat := (x &&& y) ^^^ ((x ^^^ 4294967295) &&& z)

/-- SHA-256 majority function. -/
def sha256Maj (x y z : Nat) : Nat := (x &&& y) ^^^ (x &&& z) ^^^ (y &&& z)

/-- The 64 SHA-256 round constants. -/
def sha256K : List Nat :=
  [1116352408, 1899447441, 3049323471, 3921009573, 961987163, 1508970993,
   2453635748, 2870763221, 3624381080, 310598401, 607225278, 1426881987,
   1925078388, 2162078206, 2614888103, 3248222580, 3835390401, 4022224774,
   264347078, 604807628, 770255983, 1249150122, 1555081692, 1996064986,
   2554220882, 2821834349, 2952996808, 3210313671, 3336571891, 3584528711,
   113926993, 338241895, 666307205, 773529912, 1294757372, 1396182291,
   1695183700, 1986661051, 2177026350, 2456956037, 2730485921, 2820302411,
   3259730800, 3345764771, 3516065817, 3600352804, 4094571909, 275423344,
   430227734, 506948616, 659060556, 883997877, 958139571, 1322822218,
   1537002063, 1747873779, 1955562222, 2024104815, 2227730452, 2361852424,
   2428436474, 2756734187, 3204031479, 3329325298]

/-- Working state of the SHA-256 compression function: eight 32-bit words. -/
structure Sha256State where
  a : Nat
  b : Nat
  c : Nat
  d : Nat
  e : Nat
  f : Nat
  g : Nat
  h : Nat
deriving DecidableEq

/-- Initial SHA-256 hash value. -/
def sha256Init : Sha256State :=
  ⟨1779033703, 3144134277, 1013904242, 2773480762, 1359893119, 2600822924, 528734635, 1541459225⟩

/-- One SHA-256 round; `kw` is the sum of the round constant and the
schedule word. -/
def sha256Round (s : Sha256State) (kw : Nat) : Sha256State :=
  let t1 := (s.h + bsig1 s.e + sha256Ch s.e s.f s.g + kw) % 4294967296
  let t2 := (bsig0 s.a + sha256Maj s.a s.b s.c) % 4294967296
  ⟨(t1 + t2) % 4294967296, s.a, s.b, s.c, (s.d + t1) % 4294967296, s.e, s.f, s.g⟩

/-- Extend the (reversed) message schedule by `k` further words. -/
def extendW : Nat → List Nat → List Nat
  | 0, ws => ws
  | k + 1, ws =>
      let v := (ssig1 (ws.getD 1 0) + ws.getD 6 0 + ssig0 (ws.getD 14 0) + ws.getD 15 0) % 4294967296
      extendW k (v :: ws)

/-- Process one 16-word block. -/
def sha256Block (s : Sha256State) (block : List Nat) : Sha256State :=
  let w := (extendW 48 block.reverse).reverse
  let fin := (List.zip sha256K w).foldl (fun st p => sha256Round st (p.1 + p.2)) s
  ⟨(s.a + fin.a) % 4294967296, (s.b + fin.b) % 4294967296, (s.c + fin.c) % 4294967296,
   (s.d + fin.d) % 4294967296, (s.e + fin.e) % 4294967296, (s.f + fin.f) % 4294967296,
   (s.g + fin.g) % 4294967296, (s.h + fin.h) % 4294967296⟩

/-- Big-endian 8-byte encoding of a length in bits. -/
def be64 (n : Nat) : List Nat :=
  [n / 2 ^ 56 % 256, n / 2 ^ 48 % 256, n / 2 ^ 40 % 256, n / 2 ^ 32 % 256,
   n / 2 ^ 24 % 256, n / 2 ^ 16 % 256, n / 2 ^ 8 % 256, n % 256]

/-- SHA-256 padding: append `0x80`, zeros to 56 mod 64, and the bit length. -/
def sha256Pad (msg : List Nat) : List Nat :=
  msg ++ 128 :: List.replicate ((119 - msg.length % 64) % 64) 0 ++ be64 (msg.length * 8)

/-- Group a byte list into big-endian 32-bit words (four bytes each). -/
def bytesToWords : List Nat → List Nat
  | b0 :: b1 :: b2 :: b3 :: rest =>
      (b0 * 16777216 + b1 * 65536 + b2 * 256 + b3) :: bytesToWords rest
  | _ => []

/-- Split a word list into blocks of sixteen words. -/
def chunk16 : List Nat → List (List Nat)
  | w0 :: w1 :: w2 :: w3 :: w4 :: w5 :: w6 :: w7 ::
    w8 :: w9 :: w10 :: w11 :: w12 :: w13 :: w14 :: w15 :: rest =>
      [w0, w1, w2, w3, w4, w5, w6, w7, w8, w9, w10, w11, w12, w13, w14, w15] :: chunk16 rest
  | _ => []

/-- Big-endian bytes of one 32-bit word. -/
def wordToBytes (w : Nat) : List Nat :=
  [w / 16777216 % 256, w / 65536 % 256, w / 256 % 256, w % 256]

/-- SHA-256 digest (32 bytes) of a byte list. -/
def sha256 (msg : List Nat) : List Nat :=
  let st := (chunk16 (bytesToWords (sha256Pad msg))).foldl sha256Block sha256Init
  [st.a, st.b, st.c, st.d, st.e, st.f, st.g, st.h].foldr (fun w acc => wordToBytes w ++ acc) []

/-- HMAC-SHA256 (RFC 2104) with a 64-byte block size, as produced by Go's
`hmac.New(sha256.New, key)`. -/
def hmacSha256 (key msg : List Nat) : List Nat :=
  let k0 := if 64 < key.length then sha256 key else key
  let kpad := k0 ++ List.replicate (64 - k0.length) 0
  let ipad := kpad.map (fun b => b ^^^ 54)
  let opad := kpad.map (fun b => b ^^^ 92)
  sha256 (opad ++ sha256 (ipad ++ msg))

-- Configuration and payload structures (`main.go` config structs).

/-- One monitored application (`ApplicationConfig` in `main.go`). -/
structure ApplicationConfig where
  name : String
  url : String
  enabled : Bool
  expectedCode : Int
deriving DecidableEq

/-- SMTP settings (`EmailConfig` in `main.go`). -/
structure EmailConfig where
  smtpHost : String
  smtpPort : String
  username : String
  password : String
  fromEmail : String
  toEmail : String
deriving DecidableEq

/-- Webhook settings (`WebhookConfig` in `main.go`); a missing secret reads
as the empty string. -/
structure WebhookConfig where
  enabled : Bool
  url : String
  secret : String
deriving DecidableEq

/-- Wire payload of the webhook channel (`WebhookPayload` in `main.go`);
the `error` field carries `omitempty`. -/
structure WebhookPayload where
  event : String
  application : String
  url : String
  timestamp : Int
  statusCode : Int
  expectedCode : Int
  error : String
  failureCount : Int
deriving DecidableEq

/-- Whole configuration (`Config` in `main.go`). -/
structure Config where
  checkInterval : String
  applications : List ApplicationConfig
  email : EmailConfig
  webhook : WebhookConfig
deriving DecidableEq

/-- The monitor: configuration plus the per-application failure counter
(`alertTracker map[string]int`; absent keys read as 0). -/
structure Monitor where
  config : Config
  alertTracker : String → Nat

/-- Fresh monitor as built in `main`: empty alert tracker. -/
def mkMonitor (cfg : Config) : Monitor :=
  { config := cfg, alertTracker := fun _ => 0 }

/-- Write one key of the alert tracker (`m.alertTracker[name] = v`). -/
def setTracker (m : Monitor) (name : String) (v : Nat) : Monitor :=
  { m with alertTracker := fun n => if n = name then v else m.alertTracker n }

-- JSON marshalling of `WebhookPayload`, following Go's `encoding/json`
-- with its default HTML escaping and the struct's field order.

/-- Escape one character as Go's `encoding/json` string encoder does
(HTML escaping on, the `json.Marshal` default). -/
def jsonEscapeChar (c : Char) : String :=
  if c = '"' then "\\\""
  else if c = '\\' then "\\\\"
  else if c = '\n' then "\\n"
  else if c = '\r' then "\\r"
  else if c = '\t' then "\\t"
  else if c.toNat < 32 then
    "\\u00" ++ String.mk [Nat.digitChar (c.toNat / 16), Nat.digitChar (c.toNat % 16)]
  else if c = '<' then "\\u003c"
  else if c = '>' then "\\u003e"
  else if c = '&' then "\\u0026"
  else if c.toNat = 8232 then "\\u2028"
  else if c.toNat = 8233 then "\\u2029"
  else String.singleton c

/-- JSON string literal for `s`, quotes included. -/
def jsonQuote (s : String) : String :=
  "\"" ++ String.join (s.toList.map jsonEscapeChar) ++ "\""

/-- Key/rendered-value pairs of the marshalled payload, in struct field
order; `error` is dropped when empty (`omitempty`). -/
def webhookPayloadFields (p : WebhookPayload) : List (String × String) :=
  [("event", jsonQuote p.event),
   ("application", jsonQuote p.application),
   ("url", jsonQuote p.url),
   ("timestamp", toString p.timestamp),
   ("status_code", toString p.statusCode),
   ("expected_code", toString p.expectedCode)]
  ++ (if p.error = "" then [] else [("error", jsonQuote p.error)])
  ++ [("failure_count", toString p.failureCount)]

/-- Render a JSON object from key/value pairs. -/
def renderJsonObject (fields : List (String × String)) : String :=
  "\x7b" ++ String.intercalate "," (fields.map fun kv => "\"" ++ kv.1 ++ "\":" ++ kv.2) ++ "\x7d"

/-- `json.Marshal` of a `WebhookPayload`: the raw body bytes sent. -/
def marshalWebhookPayload (p : WebhookPayload) : List Nat :=
  utf8Encode (renderJsonObject (webhookPayloadFields p))

-- The webhook channel (`sendWebhook`, `generateWebhookSignature`).

/-- Result of one HTTP POST as seen by `sendWebhook`: a response status,
or a transport failure with its error message. -/
inductive HttpResult where
  | response (statusCode : Int)
  | failure (message : String)
deriving DecidableEq

/-- The HTTP request `sendWebhook` builds (method POST, fixed headers). -/
structure WebhookRequest where
  url : String
  contentType : String
  userAgent : String
  signature : Option String
  body : List Nat
deriving DecidableEq

/-- `generateWebhookSignature`: `"sha256=" + hex(HMAC-SHA256(secret, payload))`. -/
def generateWebhookSignature (payload : List Nat) (secret : String) : String :=
  "sha256=" ++ hexEncodeBytes (hmacSha256 (utf8Encode secret) payload)

/-- `sendWebhook`: returns the request issued (none when skipped) and the
error result (none on success). `transport` stands for the HTTP client's
behaviour on the issued request. -/
def sendWebhook (cfg : WebhookConfig) (payload : WebhookPayload) (transport : HttpResult) :
    Option WebhookRequest × Option String :=
  if cfg.enabled = false ∨ cfg.url = "" then (none, none)
  else
    let jsonData := marshalWebhookPayload payload
    let sig := if cfg.secret = "" then none
               else some (generateWebhookSignature jsonData cfg.secret)
    let req : WebhookRequest :=
      { url := cfg.url, contentType := "application/json",
        userAgent := "AppMonitor/1.0", signature := sig, body := jsonData }
    match transport with
    | .failure msg => (some req, some ("failed to send webhook: " ++ msg))
    | .response code =>
        if code < 200 ∨ 300 ≤ code then
          (some req, some ("webhook request failed with status " ++ toString code))
        else (some req, none)

/-- The raw SMTP message `sendEmail` submits (delivery itself is external). -/
def emailMessage (cfg : EmailConfig) (subject body : String) : String :=
  "From: " ++ cfg.fromEmail ++ "\r\nTo: " ++ cfg.toEmail ++ "\r\nSubject: " ++ subject
    ++ "\r\n\r\n" ++ body

-- Notification events and the alert/recovery state machine.

/-- A notification event as decided by the state tracker: an Alert or a
Recovery, with the rendered email subject/body and the webhook payload. -/
inductive NotificationEvent where
  | alert (subject body : String) (payload : WebhookPayload)
  | recovery (subject body : String) (payload : WebhookPayload)
deriving DecidableEq

/-- Result of `sendAlert` / `sendRecoveryNotice`: updated monitor, emitted
notification events, and log lines. -/
structure NotifyResult where
  monitor : Monitor
  events : List NotificationEvent
  logs : List String

/-- `sendAlert` (`main.go` lines 83-151): increment the failure counter;
exactly when the new count is 2, render and deliver the alert on both
channels and set the counter to 3 ("alert was sent"). `emailErr` is the
SMTP delivery result and `webhookTransport` the HTTP client's behaviour;
`now` / `nowUnix` stand for the formatted and Unix readings of the clock. -/
def sendAlert (m : Monitor) (app : ApplicationConfig) (statusCode : Int)
    (err : Option String) (now : String) (nowUnix : Int)
    (emailErr : Option String) (webhookTransport : HttpResult) : NotifyResult :=
  let newCount := m.alertTracker app.name + 1
  let m1 := setTracker m app.name newCount
  if newCount = 2 then
    let subject := "ALERT: " ++ app.name ++ " is DOWN"
    let body :=
      match err with
      | some e =>
          "\nService Alert - " ++ app.name ++ "\n\nApplication: " ++ app.name
            ++ "\nURL: " ++ app.url ++ "\nStatus: Connection Failed\nError: " ++ e
            ++ "\nTime: " ++ now ++ "\nFailed Attempts: 2\n\nPlease investigate immediately.\n"
      | none =>
          "\nService Alert - " ++ app.name ++ "\n\nApplication: " ++ app.name
            ++ "\nURL: " ++ app.url ++ "\nExpected Status: " ++ toString app.expectedCode
            ++ "\nActual Status: " ++ toString statusCode
            ++ "\nTime: " ++ now ++ "\nFailed Attempts: 2\n\nPlease investigate immediately.\n"
    let emailLog :=
      match emailErr with
      | some e => "Failed to send email alert for " ++ app.name ++ ": " ++ e
      | none => "Email alert sent for " ++ app.name ++ " after 2 failures"
    let payload : WebhookPayload :=
      { event := "application_down", application := app.name, url := app.url,
        timestamp := nowUnix, statusCode := statusCode, expectedCode := app.expectedCode,
        error := match err with | some e => e | none => "",
        failureCount := 2 }
    let wh := sendWebhook m.config.webhook payload webhookTransport
    let webhookLogs :=
      match wh.2 with
      | some e => ["Failed to send webhook alert for " ++ app.name ++ ": " ++ e]
      | none =>
          if m.config.webhook.enabled then
            ["Webhook alert sent for " ++ app.name ++ " after 2 failures"]
          else []
    { monitor := setTracker m1 app.name 3,
      events := [.alert subject body payload],
      logs := emailLog :: webhookLogs }
  else
    { monitor := m1, events := [], logs := [] }

/-- `sendRecoveryNotice` (`main.go` lines 153-198): when the counter is
below 3 (no alert was sent), silently reset it to 0; otherwise render and
deliver the recovery notice on both channels and reset the counter to 0. -/
def sendRecoveryNotice (m : Monitor) (app : ApplicationConfig)
    (now : String) (nowUnix : Int)
    (emailErr : Option String) (webhookTransport : HttpResult) : NotifyResult :=
  if m.alertTracker app.name < 3 then
    { monitor := setTracker m app.name 0, events := [], logs := [] }
  else
    let subject := "RECOVERY: " ++ app.name ++ " is back online"
    let body :=
      "\nService Recovery - " ++ app.name ++ "\n\nApplication: " ++ app.name
        ++ "\nURL: " ++ app.url ++ "\nStatus: OK\nTime: " ++ now
        ++ "\n\nService has recovered and is responding normally.\n"
    let emailLog :=
      match emailErr with
      | some e => "Failed to send recovery email for " ++ app.name ++ ": " ++ e
      | none => "Recovery email sent for " ++ app.name
    let payload : WebhookPayload :=
      { event := "application_recovery", application := app.name, url := app.url,
        timestamp := nowUnix, statusCode := 200, expectedCode := app.expectedCode,
        error := "", failureCount := 0 }
    let wh := sendWebhook m.config.webhook payload webhookTransport
    let webhookLogs :=
      match wh.2 with
      | some e => ["Failed to send webhook recovery notice for " ++ app.name ++ ": " ++ e]
      | none =>
          if m.config.webhook.enabled then
            ["Webhook recovery notice sent for " ++ app.name]
          else []
    { monitor := setTracker m app.name 0,
      events := [.recovery subject body payload],
      logs := emailLog :: webhookLogs }

-- Probe classification (`checkApplication`).

/-- Outcome of the single `httpClient.Get` of one check: a response with
its status code (body drained and discarded), or a transport error. -/
inductive ProbeResult where
  | ok (statusCode : Int)
  | transportError (message : String)
deriving DecidableEq

/-- Result of `checkApplication`: updated monitor, events, log lines, and
the number of HTTP GET probes issued. -/
structure CheckResult where
  monitor : Monitor
  events : List NotificationEvent
  logs : List String
  httpGets : Nat

/-- `checkApplication` (`main.go` lines 260-286): a disabled application is
never probed; otherwise one GET is issued and its outcome classified —
transport error feeds `sendAlert` with status 0 and the error, an expected
status feeds `sendRecoveryNotice`, an unexpected status feeds `sendAlert`
with the observed status and no error. -/
def checkApplication (m : Monitor) (app : ApplicationConfig) (probe : ProbeResult)
    (now : String) (nowUnix : Int)
    (emailErr : Option String) (webhookTransport : HttpResult) : CheckResult :=
  if app.enabled = false then
    { monitor := m, events := [], logs := [], httpGets := 0 }
  else
    match probe with
    | .transportError msg =>
        let r := sendAlert m app 0 (some msg) now nowUnix emailErr webhookTransport
        { monitor := r.monitor, events := r.events,
          logs := ("ERROR: Failed to connect to " ++ app.name ++ " (" ++ app.url ++ "): " ++ msg)
            :: r.logs,
          httpGets := 1 }
    | .ok status =>
        if status = app.expectedCode then
          let r := sendRecoveryNotice m app now nowUnix emailErr webhookTransport
          { monitor := r.monitor, events := r.events,
            logs := ("[" ++ now ++ "] OK - " ++ app.name ++ " is healthy (Status: "
              ++ toString status ++ ")") :: r.logs,
            httpGets := 1 }
        else
          let r := sendAlert m app status none now nowUnix emailErr webhookTransport
          { monitor := r.monitor, events := r.events,
            logs := ("[" ++ now ++ "] WARNING - " ++ app.name
              ++ " returned unexpected status code: " ++ toString status
              ++ " (expected: " ++ toString app.expectedCode ++ ")") :: r.logs,
            httpGets := 1 }

-- Runs of consecutive checks of one application.

/-- External inputs of one check round for one application: the probe
outcome and the delivery environment. -/
structure CheckInput where
  probe : ProbeResult
  now : String
  nowUnix : Int
  emailErr : Option String
  webhookTransport : HttpResult
deriving DecidableEq

/-- Fold a sequence of checks of one application, collecting all emitted
notification events in order. -/
def runSequence (m : Monitor) (app : ApplicationConfig) :
    List CheckInput → Monitor × List NotificationEvent
  | [] => (m, [])
  | i :: is =>
      let r := checkApplication m app i.probe i.now i.nowUnix i.emailErr i.webhookTransport
      let rest := runSequence r.monitor app is
      (rest.1, r.events ++ rest.2)

/-- Is this event an Alert? -/
def isAlertEvent : NotificationEvent → Bool
  | .alert _ _ _ => true
  | .recovery _ _ _ => false

/-- Is this event a Recovery? -/
def isRecoveryEvent : NotificationEvent → Bool
  | .alert _ _ _ => false
  | .recovery _ _ _ => true

/-- Number of Alert events in a list. -/
def countAlerts (evs : List NotificationEvent) : Nat :=
  (evs.filter isAlertEvent).length

/-- Number of Recovery events in a list. -/
def countRecoveries (evs : List NotificationEvent) : Nat :=
  (evs.filter isRecoveryEvent).length

/-- Does this probe outcome count as healthy for `app`? -/
def isHealthyOutcome (app : ApplicationConfig) : ProbeResult → Bool
  | .ok s => s = app.expectedCode
  | .transportError _ => false

/-- The counter update a non-healthy outcome performs: increment, except
that reaching the threshold 2 stores 3 ("alert was sent"). -/
def failStep (c : Nat) : Nat := if c + 1 = 2 then 3 else c + 1

/-- Fold a sequence of checks while tracking the ghost flag "an alert has
been attempted in the current failure episode": set when an Alert event is
emitted, cleared by a healthy outcome of an enabled check. -/
def runWithEpisode (m : Monitor) (app : ApplicationConfig) (g : Bool) :
    List CheckInput → Monitor × Bool
  | [] => (m, g)
  | i :: is =>
      let r := checkApplication m app i.probe i.now i.nowUnix i.emailErr i.webhookTransport
      let g' := if app.enabled = true ∧ isHealthyOutcome app i.probe = true then false
                else g || r.events.any isAlertEvent
      runWithEpisode r.monitor app g' is

/-- Per-step event lists of a sequence of checks of one application. -/
def stepEvents (m : Monitor) (app : ApplicationConfig) :
    List CheckInput → List (List NotificationEvent)
  | [] => []
  | i :: is =>
      let r := checkApplication m app i.probe i.now i.nowUnix i.emailErr i.webhookTransport
      r.events :: stepEvents r.monitor app is

-- Concrete sample data used to instantiate theorems with hypotheses.

/-- Sample email settings. -/
def sampleEmail : EmailConfig :=
  { smtpHost := "smtp.example.com", smtpPort := "587", username := "u",
    password := "p", fromEmail := "from@example.com", toEmail := "to@example.com" }

/-- Sample enabled application expecting status 200. -/
def sampleApp : ApplicationConfig :=
  { name := "sample", url := "http://sample", enabled := true, expectedCode := 200 }

/-- Sample enabled application expecting status 301. -/
def sampleApp301 : ApplicationConfig :=
  { name := "sample", url := "http://sample", enabled := true, expectedCode := 301 }

/-- Sample disabled application. -/
def sampleAppOff : ApplicationConfig :=
  { name := "sample", url := "http://sample", enabled := false, expectedCode := 200 }

/-- Sample enabled webhook channel with a secret. -/
def sampleWebhookOn : WebhookConfig :=
  { enabled := true, url := "http://hook", secret := "key" }

/-- Sample configuration. -/
def sampleConfig : Config :=
  { checkInterval := "30s", applications := [sampleApp],
    email := sampleEmail, webhook := sampleWebhookOn }

/-- Sample monitor whose tracker reads `v` for every application. -/
def sampleMonitorAt (v : Nat) : Monitor :=
  { config := sampleConfig, alertTracker := fun _ => v }

/-- Sample check input with a fixed clock and successful delivery. -/
def sampleInput (p : ProbeResult) : CheckInput :=
  { probe := p, now := "T", nowUnix := 0, emailErr := none,
    webhookTransport := .response 200 }

/-- Subject of the alert `checkApplication` emits from `sampleMonitorAt 1`
on a second consecutive unexpected status 500. -/
def sampleAlertSubject : String := "ALERT: sample is DOWN"

/-- Body of that alert email. -/
def sampleAlertBody : String :=
  "\nService Alert - sample\n\nApplication: sample\nURL: http://sample\nExpected Status: 200\nActual Status: 500\nTime: T\nFailed Attempts: 2\n\nPlease investigate immediately.\n"

/-- Webhook payload of that alert. -/
def sampleAlertPayload : WebhookPayload :=
  { event := "application_down", application := "sample", url := "http://sample",
    timestamp := 0, statusCode := 500, expectedCode := 200, error := "", failureCount := 2 }

/-- Subject of the recovery notice `sendRecoveryNotice` emits from
`sampleMonitorAt 3` for the application expecting status 301. -/
def sampleRecoverySubject : String := "RECOVERY: sample is back online"

/-- Body of that recovery email. -/
def sampleRecoveryBody : String :=
  "\nService Recovery - sample\n\nApplication: sample\nURL: http://sample\nStatus: OK\nTime: T\n\nService has recovered and is responding normally.\n"

/-- Webhook payload of that recovery notice. -/
def sampleRecoveryPayload : WebhookPayload :=
  { event := "application_recovery", application := "sample", url := "http://sample",
    timestamp := 0, statusCode := 200, expectedCode := 301, error := "", failureCount := 0 }

-- Basic lemmas about the tracker and the two notification routines.

theorem setTracker_read_self (m : Monitor) (name : String) (v : Nat) :
    (setTracker m name v).alertTracker name = v := by
  simp [setTracker]

theorem sendAlert_tracker (m : Monitor) (app : ApplicationConfig) (sc : Int)
    (err : Option String) (now : String) (nowUnix : Int)
    (ee : Option String) (wt : HttpResult) :
    (sendAlert m app sc err now nowUnix ee wt).monitor.alertTracker app.name
      = failStep (m.alertTracker app.name) := by
  by_cases h : m.alertTracker app.name + 1 = 2 <;>
    simp [sendAlert, failStep, setTracker, h]

theorem sendAlert_events_eq (m : Monitor) (app : ApplicationConfig) (sc : Int)
    (err : Option String) (now : String) (nowUnix : Int)
    (ee : Option String) (wt : HttpResult) :
    countAlerts (sendAlert m app sc err now nowUnix ee wt).events
      = if m.alertTracker app.name + 1 = 2 then 1 else 0 := by
  by_cases h : m.alertTracker app.name + 1 = 2 <;>
    simp [sendAlert, countAlerts, isAlertEvent, h]

theorem sendAlert_no_recovery (m : Monitor) (app : ApplicationConfig) (sc : Int)
    (err : Option String) (now : String) (nowUnix : Int)
    (ee : Option String) (wt : HttpResult) :
    countRecoveries (sendAlert m app sc err now nowUnix ee wt).events = 0 := by
  by_cases h : m.alertTracker app.name + 1 = 2 <;>
    simp [sendAlert, countRecoveries, isRecoveryEvent, h]

theorem sendRecoveryNotice_tracker (m : Monitor) (app : ApplicationConfig)
    (now : String) (nowUnix : Int) (ee : Option String) (wt : HttpResult) :
    (sendRecoveryNotice m app now nowUnix ee wt).monitor.alertTracker app.name = 0 := by
  by_cases h : m.alertTracker app.name < 3 <;>
    simp [sendRecoveryNotice, setTracker, h]

theorem sendRecoveryNotice_events_eq (m : Monitor) (app : ApplicationConfig)
    (now : String) (nowUnix : Int) (ee : Option String) (wt : HttpResult) :
    countRecoveries (sendRecoveryNotice m app now nowUnix ee wt).events
      = if 3 ≤ m.alertTracker app.name then 1 else 0 := by
  by_cases h : m.alertTracker app.name < 3
  · rw [if_neg (by omega)]
    simp [sendRecoveryNotice, countRecoveries, h]
  · rw [if_pos (by omega)]
    simp [sendRecoveryNotice, countRecoveries, isRecoveryEvent, h]

theorem sendRecoveryNotice_no_alert (m : Monitor) (app : ApplicationConfig)
    (now : String) (nowUnix : Int) (ee : Option String) (wt : HttpResult) :
    countAlerts (sendRecoveryNotice m app now nowUnix ee wt).events = 0 := by
  by_cases h : m.alertTracker app.name < 3 <;>
    simp [sendRecoveryNotice, countAlerts, isAlertEvent, h]

-- Step lemmas for `checkApplication`.

theorem checkApplication_tracker (m : Monitor) (app : ApplicationConfig)
    (p : ProbeResult) (now : String) (nowUnix : Int)
    (ee : Option String) (wt : HttpResult) :
    (checkApplication m app p now nowUnix ee wt).monitor.alertTracker app.name
      = if app.enabled = false then m.alertTracker app.name
        else if isHealthyOutcome app p then 0
        else failStep (m.alertTracker app.name) := by
  by_cases he : app.enabled = false
  · simp [checkApplication, he]
  · cases p with
    | transportError msg =>
        simp [checkApplication, he, isHealthyOutcome, sendAlert_tracker]
    | ok s =>
        by_cases hs : s = app.expectedCode <;>
          simp [checkApplication, he, isHealthyOutcome, hs,
            sendAlert_tracker, sendRecoveryNotice_tracker]

theorem checkApplication_countAlerts (m : Monitor) (app : ApplicationConfig)
    (p : ProbeResult) (now : String) (nowUnix : Int)
    (ee : Option String) (wt : HttpResult) :
    countAlerts (checkApplication m app p now nowUnix ee wt).events
      = if app.enabled = false then 0
        else if isHealthyOutcome app p then 0
        else if m.alertTracker app.name + 1 = 2 then 1 else 0 := by
  by_cases he : app.enabled = false
  · simp [checkApplication, he, countAlerts]
  · cases p with
    | transportError msg =>
        simp [checkApplication, he, isHealthyOutcome, sendAlert_events_eq]
    | ok s =>
        by_cases hs : s = app.expectedCode <;>
          simp [checkApplication, he, isHealthyOutcome, hs,
            sendAlert_events_eq, sendRecoveryNotice_no_alert]

theorem checkApplication_countRecoveries (m : Monitor) (app : ApplicationConfig)
    (p : ProbeResult) (now : String) (nowUnix : Int)
    (ee : Option String) (wt : HttpResult) :
    countRecoveries (checkApplication m app p now nowUnix ee wt).events
      = if app.enabled = true ∧ isHealthyOutcome app p = true
            ∧ 3 ≤ m.alertTracker app.name then 1 else 0 := by
  by_cases he : app.enabled = false
  · rw [if_neg (by simp [he])]
    simp [checkApplication, he, countRecoveries]
  · have he' : app.enabled = true := by revert he; cases app.enabled <;> simp
    cases p with
    | transportError msg =>
        rw [if_neg (by simp [isHealthyOutcome])]
        simp [checkApplication, he, sendAlert_no_recovery]
    | ok s =>
        by_cases hs : s = app.expectedCode
        · simp [checkApplication, he, hs, sendRecoveryNotice_events_eq, he', isHealthyOutcome]
        · rw [if_neg (by simp [isHealthyOutcome, hs])]
          simp [checkApplication, he, hs, sendAlert_no_recovery]

theorem countAlerts_append (a b : List NotificationEvent) :
    countAlerts (a ++ b) = countAlerts a + countAlerts b := by
  simp [countAlerts, List.filter_append]

theorem sendAlert_anyAlert (m : Monitor) (app : ApplicationConfig) (sc : Int)
    (err : Option String) (now : String) (nowUnix : Int)
    (ee : Option String) (wt : HttpResult) :
    (sendAlert m app sc err now nowUnix ee wt).events.any isAlertEvent
      = decide (m.alertTracker app.name + 1 = 2) := by
  by_cases h : m.alertTracker app.name + 1 = 2 <;>
    simp [sendAlert, isAlertEvent, h]

theorem sendRecoveryNotice_anyAlert (m : Monitor) (app : ApplicationConfig)
    (now : String) (nowUnix : Int) (ee : Option String) (wt : HttpResult) :
    (sendRecoveryNotice m app now nowUnix ee wt).events.any isAlertEvent = false := by
  by_cases h : m.alertTracker app.name < 3 <;>
    simp [sendRecoveryNotice, isAlertEvent, h]

theorem checkApplication_anyAlert (m : Monitor) (app : ApplicationConfig)
    (p : ProbeResult) (now : String) (nowUnix : Int)
    (ee : Option String) (wt : HttpResult) :
    (checkApplication m app p now nowUnix ee wt).events.any isAlertEvent
      = if app.enabled = false then false
        else if isHealthyOutcome app p then false
        else decide (m.alertTracker app.name + 1 = 2) := by
  by_cases he : app.enabled = false
  · simp [checkApplication, he]
  · cases p with
    | transportError msg =>
        simp [checkApplication, he, isHealthyOutcome, sendAlert_anyAlert]
    | ok s =>
        by_cases hs : s = app.expectedCode <;>
          simp [checkApplication, he, isHealthyOutcome, hs,
            sendAlert_anyAlert, sendRecoveryNotice_anyAlert]

theorem failStep_ge_two (c : Nat) (h : 2 ≤ c) : 2 ≤ failStep c := by
  unfold failStep; split <;> omega

-- Alerts along a run of consecutive non-healthy outcomes.

theorem runSequence_alerts_high (app : ApplicationConfig) :
    ∀ (inputs : List CheckInput) (m : Monitor),
      (∀ i ∈ inputs, isHealthyOutcome app i.probe = false) →
      2 ≤ m.alertTracker app.name →
      countAlerts (runSequence m app inputs).2 = 0 := by
  intro inputs
  induction inputs with
  | nil => intro m _ _; simp [runSequence, countAlerts]
  | cons i is ih =>
    intro m hall h2
    have hi : isHealthyOutcome app i.probe = false := hall i (List.mem_cons_self i is)
    have his : ∀ j ∈ is, isHealthyOutcome app j.probe = false :=
      fun j hj => hall j (List.mem_cons_of_mem i hj)
    have htr := checkApplication_tracker m app i.probe i.now i.nowUnix i.emailErr i.webhookTransport
    have hcnt := checkApplication_countAlerts m app i.probe i.now i.nowUnix i.emailErr i.webhookTransport
    have h2' : 2 ≤ (checkApplication m app i.probe i.now i.nowUnix i.emailErr
        i.webhookTransport).monitor.alertTracker app.name := by
      rw [htr]
      by_cases he : app.enabled = false
      · simpa [he] using h2
      · simpa [he, hi] using failStep_ge_two _ h2
    have hcz : countAlerts (checkApplication m app i.probe i.now i.nowUnix i.emailErr
        i.webhookTransport).events = 0 := by
      rw [hcnt]
      by_cases he : app.enabled = false
      · simp [he]
      · have hne : ¬(m.alertTracker app.name + 1 = 2) := by omega
        simp [he, hi, hne]
    simp only [runSequence]
    rw [countAlerts_append, hcz, ih _ his h2']

theorem runSequence_at_most_one (app : ApplicationConfig) :
    ∀ (inputs : List CheckInput) (m : Monitor),
      (∀ i ∈ inputs, isHealthyOutcome app i.probe = false) →
      countAlerts (runSequence m app inputs).2 ≤ 1 := by
  intro inputs
  induction inputs with
  | nil => intro m _; simp [runSequence, countAlerts]
  | cons i is ih =>
    intro m hall
    have hi : isHealthyOutcome app i.probe = false := hall i (List.mem_cons_self i is)
    have his : ∀ j ∈ is, isHealthyOutcome app j.probe = false :=
      fun j hj => hall j (List.mem_cons_of_mem i hj)
    have htr := checkApplication_tracker m app i.probe i.now i.nowUnix i.emailErr i.webhookTransport
    have hcnt := checkApplication_countAlerts m app i.probe i.now i.nowUnix i.emailErr i.webhookTransport
    simp only [runSequence]
    rw [countAlerts_append]
    by_cases he : app.enabled = false
    · have hc0 : countAlerts (checkApplication m app i.probe i.now i.nowUnix i.emailErr
          i.webhookTransport).events = 0 := by rw [hcnt]; simp [he]
      rw [hc0]
      simpa using ih _ his
    · by_cases h2 : m.alertTracker app.name + 1 = 2
      · have hrest0 : countAlerts (runSequence (checkApplication m app i.probe i.now
            i.nowUnix i.emailErr i.webhookTransport).monitor app is).2 = 0 := by
          apply runSequence_alerts_high app is _ his
          rw [htr]
          have h3 : failStep (m.alertTracker app.name) = 3 := by
            unfold failStep; rw [if_pos h2]
          simp [he, hi, h3]
        have hstep_le : countAlerts (checkApplication m app i.probe i.now i.nowUnix i.emailErr
            i.webhookTransport).events ≤ 1 := by
          rw [hcnt]
          simp [he, hi, h2]
        rw [hrest0]
        omega
      · have hc0 : countAlerts (checkApplication m app i.probe i.now i.nowUnix i.emailErr
            i.webhookTransport).events = 0 := by rw [hcnt]; simp [he, hi, h2]
        rw [hc0]
        simpa using ih _ his

-- Invariant of the tracked counter and the episode ghost flag.

theorem runWithEpisode_inv (app : ApplicationConfig) :
    ∀ (inputs : List CheckInput) (m : Monitor) (g : Bool),
      ((m.alertTracker app.name ≤ 1 ∧ g = false)
        ∨ (3 ≤ m.alertTracker app.name ∧ g = true)) →
      (((runWithEpisode m app g inputs).1.alertTracker app.name ≤ 1
          ∧ (runWithEpisode m app g inputs).2 = false)
        ∨ (3 ≤ (runWithEpisode m app g inputs).1.alertTracker app.name
          ∧ (runWithEpisode m app g inputs).2 = true)) := by
  intro inputs
  induction inputs with
  | nil => intro m g h; simpa [runWithEpisode] using h
  | cons i is ih =>
    intro m g h
    simp only [runWithEpisode]
    apply ih
    by_cases he : app.enabled = false
    · have hc : ¬(app.enabled = true ∧ isHealthyOutcome app i.probe = true) := by
        simp [he]
      have htr2 : (checkApplication m app i.probe i.now i.nowUnix i.emailErr
          i.webhookTransport).monitor.alertTracker app.name = m.alertTracker app.name := by
        rw [checkApplication_tracker]; simp [he]
      have hany : (checkApplication m app i.probe i.now i.nowUnix i.emailErr
          i.webhookTransport).events.any isAlertEvent = false := by
        rw [checkApplication_anyAlert]; simp [he]
      rw [if_neg hc, htr2, hany]
      simpa using h
    · have he' : app.enabled = true := by revert he; cases app.enabled <;> simp
      by_cases hh : isHealthyOutcome app i.probe = true
      · have hc : app.enabled = true ∧ isHealthyOutcome app i.probe = true := ⟨he', hh⟩
        have htr2 : (checkApplication m app i.probe i.now i.nowUnix i.emailErr
            i.webhookTransport).monitor.alertTracker app.name = 0 := by
          rw [checkApplication_tracker]; simp [he, hh]
        rw [if_pos hc, htr2]
        left
        exact ⟨by omega, rfl⟩
      · have hh' : isHealthyOutcome app i.probe = false := by
          revert hh; cases isHealthyOutcome app i.probe <;> simp
        have hc : ¬(app.enabled = true ∧ isHealthyOutcome app i.probe = true) := by
          simp [hh']
        have htr2 : (checkApplication m app i.probe i.now i.nowUnix i.emailErr
            i.webhookTransport).monitor.alertTracker app.name
              = failStep (m.alertTracker app.name) := by
          rw [checkApplication_tracker]; simp [he, hh']
        have hany : (checkApplication m app i.probe i.now i.nowUnix i.emailErr
            i.webhookTransport).events.any isAlertEvent
              = decide (m.alertTracker app.name + 1 = 2) := by
          rw [checkApplication_anyAlert]; simp [he, hh']
        rw [if_neg hc, htr2, hany]
        rcases h with ⟨h1, h2⟩ | ⟨h1, h2⟩
        · by_cases h12 : m.alertTracker app.name + 1 = 2
          · right
            refine ⟨?_, ?_⟩
            · unfold failStep; rw [if_pos h12]
            · simp [h2, h12]
          · left
            refine ⟨?_, ?_⟩
            · unfold failStep; rw [if_neg h12]; omega
            · simp [h2, h12]
        · have h12 : ¬(m.alertTracker app.name + 1 = 2) := by omega
          right
          refine ⟨?_, ?_⟩
          · unfold failStep; rw [if_neg h12]; omega
          · simp [h2]

-- Bytes of a SHA-256 digest are below 256, so its hex encoding stays in
-- the lowercase hex alphabet.

theorem mem_wordToBytes_lt {b w : Nat} (hb : b ∈ wordToBytes w) : b < 256 := by
  simp only [wordToBytes, List.mem_cons, List.not_mem_nil, or_false] at hb
  rcases hb with h | h | h | h <;> subst h <;> exact Nat.mod_lt _ (by norm_num)

theorem mem_sha256_lt {b : Nat} {msg : List Nat} (hb : b ∈ sha256 msg) : b < 256 := by
  simp only [sha256, List.foldr, List.mem_append, List.not_mem_nil, or_false] at hb
  rcases hb with h | h | h | h | h | h | h | h <;> exact mem_wordToBytes_lt h

theorem digitChar_mem_hexAlphabet {n : Nat} (h : n < 16) :
    hexAlphabet.contains (Nat.digitChar n) = true := by
  interval_cases n <;> decide

theorem hexDigits_all_lowercase :
    ∀ (bs : List Nat), (∀ b ∈ bs, b < 256) →
      (bs.foldr (fun b acc => Nat.digitChar (b / 16) :: Nat.digitChar (b % 16) :: acc) []).all
        (fun c => hexAlphabet.contains c) = true := by
  intro bs
  induction bs with
  | nil => intro _; rfl
  | cons b rest ih =>
    intro h
    have hb : b < 256 := h b (List.mem_cons_self b rest)
    have hrest : ∀ x ∈ rest, x < 256 := fun x hx => h x (List.mem_cons_of_mem b hx)
    have hdiv : b / 16 < 16 := by omega
    have hmod : b % 16 < 16 := by omega
    simp only [List.foldr_cons, List.all_cons]
    rw [digitChar_mem_hexAlphabet hdiv, digitChar_mem_hexAlphabet hmod, ih hrest]
    rfl

theorem hexEncodeBytes_lowercase {bs : List Nat} (h : ∀ b ∈ bs, b < 256) :
    (hexEncodeBytes bs).toList.all (fun c => hexAlphabet.contains c) = true :=
  hexDigits_all_lowercase bs h

-- Claim theorems.

/-- Claim C1: an Alert is emitted by `sendAlert` exactly when the
incremented consecutive-failure counter equals 2; a first non-healthy
outcome (counter 0) moves the counter to 1 and emits nothing. -/
theorem sendAlert_no_alert_before_two (m : Monitor) (app : ApplicationConfig)
    (sc : Int) (err : Option String) (now : String) (nowUnix : Int)
    (ee : Option String) (wt : HttpResult) :
    (countAlerts (sendAlert m app sc err now nowUnix ee wt).events
        = if m.alertTracker app.name + 1 = 2 then 1 else 0)
    ∧ ((sendAlert m app sc err now nowUnix ee wt).events ≠ []
        ↔ m.alertTracker app.name + 1 = 2)
    ∧ (m.alertTracker app.name = 0 →
        (sendAlert m app sc err now nowUnix ee wt).monitor.alertTracker app.name = 1
          ∧ (sendAlert m app sc err now nowUnix ee wt).events = []) := by
  refine ⟨sendAlert_events_eq m app sc err now nowUnix ee wt, ?_, ?_⟩
  · by_cases h : m.alertTracker app.name + 1 = 2 <;> simp [sendAlert, h]
  · intro h0
    have hne : ¬(m.alertTracker app.name + 1 = 2) := by omega
    constructor
    · rw [sendAlert_tracker, h0]
      decide
    · simp [sendAlert, hne]

/-- Witness for C1: from a fresh counter, one failed probe leaves the
counter at 1 and emits nothing. -/
theorem sendAlert_no_alert_before_two_witness :
    (sampleMonitorAt 0).alertTracker sampleApp.name = 0
    ∧ ((sendAlert (sampleMonitorAt 0) sampleApp 500 none "T" 0 none
          (HttpResult.response 200)).monitor.alertTracker sampleApp.name = 1
        ∧ (sendAlert (sampleMonitorAt 0) sampleApp 500 none "T" 0 none
          (HttpResult.response 200)).events = []) :=
  ⟨rfl, (sendAlert_no_alert_before_two (sampleMonitorAt 0) sampleApp 500 none "T" 0 none
    (HttpResult.response 200)).2.2 rfl⟩

/-- Claim C3: `sendRecoveryNotice` emits a Recovery exactly when the
counter is at least 3 (an alert was sent this episode); below 3 it resets
the counter silently (no events, no log lines); a healthy outcome of an
enabled check routes to `sendRecoveryNotice`. -/
theorem recovery_iff_alerted (m : Monitor) (app : ApplicationConfig)
    (now : String) (nowUnix : Int) (ee : Option String) (wt : HttpResult) :
    (countRecoveries (sendRecoveryNotice m app now nowUnix ee wt).events
        = if 3 ≤ m.alertTracker app.name then 1 else 0)
    ∧ ((sendRecoveryNotice m app now nowUnix ee wt).monitor.alertTracker app.name = 0)
    ∧ (m.alertTracker app.name < 3 →
        (sendRecoveryNotice m app now nowUnix ee wt).events = []
          ∧ (sendRecoveryNotice m app now nowUnix ee wt).logs = [])
    ∧ (∀ p : ProbeResult, app.enabled = true → isHealthyOutcome app p = true →
        (checkApplication m app p now nowUnix ee wt).events
          = (sendRecoveryNotice m app now nowUnix ee wt).events) := by
  refine ⟨sendRecoveryNotice_events_eq m app now nowUnix ee wt,
    sendRecoveryNotice_tracker m app now nowUnix ee wt, ?_, ?_⟩
  · intro hlt
    constructor <;> simp [sendRecoveryNotice, hlt]
  · intro p hen hp
    cases p with
    | ok s =>
        have hs : s = app.expectedCode := by
          simpa [isHealthyOutcome] using hp
        simp [checkApplication, hen, hs]
    | transportError msg =>
        exact absurd hp (by simp [isHealthyOutcome])

/-- Witness for C3: a healthy outcome after a single sub-threshold failure
emits nothing and produces no log lines. -/
theorem recovery_iff_alerted_witness :
    (sampleMonitorAt 1).alertTracker sampleApp.name < 3
    ∧ ((sendRecoveryNotice (sampleMonitorAt 1) sampleApp "T" 0 none
          (HttpResult.response 200)).events = []
        ∧ (sendRecoveryNotice (sampleMonitorAt 1) sampleApp "T" 0 none
          (HttpResult.response 200)).logs = []) :=
  ⟨by decide, (recovery_iff_alerted (sampleMonitorAt 1) sampleApp "T" 0 none
    (HttpResult.response 200)).2.2.1 (by decide)⟩

/-- Claim C4: delivery outcomes (SMTP result, webhook transport) never
affect the monitor state or the emitted events; at the threshold the
counter is set to 3 regardless of delivery, and a recovery resets the
counter to 0 unconditionally. -/
theorem delivery_does_not_affect_state (m : Monitor) (app : ApplicationConfig)
    (sc : Int) (err : Option String) (now : String) (nowUnix : Int)
    (ee ee' : Option String) (wt wt' : HttpResult) :
    ((sendAlert m app sc err now nowUnix ee wt).monitor
        = (sendAlert m app sc err now nowUnix ee' wt').monitor)
    ∧ ((sendAlert m app sc err now nowUnix ee wt).events
        = (sendAlert m app sc err now nowUnix ee' wt').events)
    ∧ (m.alertTracker app.name + 1 = 2 →
        (sendAlert m app sc err now nowUnix ee wt).monitor.alertTracker app.name = 3)
    ∧ ((sendRecoveryNotice m app now nowUnix ee wt).monitor
        = (sendRecoveryNotice m app now nowUnix ee' wt').monitor)
    ∧ ((sendRecoveryNotice m app now nowUnix ee wt).events
        = (sendRecoveryNotice m app now nowUnix ee' wt').events)
    ∧ ((sendRecoveryNotice m app now nowUnix ee wt).monitor.alertTracker app.name = 0) := by
  refine ⟨?_, ?_, ?_, ?_, ?_, sendRecoveryNotice_tracker m app now nowUnix ee wt⟩
  · by_cases h : m.alertTracker app.name + 1 = 2 <;> simp [sendAlert, h]
  · by_cases h : m.alertTracker app.name + 1 = 2 <;> simp [sendAlert, h]
  · intro h2
    rw [sendAlert_tracker]
    unfold failStep
    rw [if_pos h2]
  · by_cases h : m.alertTracker app.name < 3 <;> simp [sendRecoveryNotice, h]
  · by_cases h : m.alertTracker app.name < 3 <;> simp [sendRecoveryNotice, h]

/-- Witness for C4: with the counter at 1, a failure under a failing email
delivery and a failing webhook transport still sets the counter to 3. -/
theorem delivery_does_not_affect_state_witness :
    (sampleMonitorAt 1).alertTracker sampleApp.name + 1 = 2
    ∧ (sendAlert (sampleMonitorAt 1) sampleApp 500 none "T" 0 (some "smtp down")
        (HttpResult.failure "conn refused")).monitor.alertTracker sampleApp.name = 3 :=
  ⟨by decide, (delivery_does_not_affect_state (sampleMonitorAt 1) sampleApp 500 none "T" 0
    (some "smtp down") none (HttpResult.failure "conn refused")
    (HttpResult.response 200)).2.2.1 (by decide)⟩

theorem mem_hmacSha256_lt {b : Nat} {key msg : List Nat}
    (hb : b ∈ hmacSha256 key msg) : b < 256 := by
  simp only [hmacSha256] at hb
  exact mem_sha256_lt hb

/-- Claim C5: the signature of every webhook request actually issued is
`"sha256=" ++` the lowercase hex HMAC-SHA256 of the request's own raw body
bytes under the configured secret (hence deterministic in secret and
body); the signature header is present exactly when the secret is
non-empty; the body is the marshalled payload; and the hex digest uses
only lowercase hex characters. -/
theorem webhook_signature_spec (cfg : WebhookConfig) (p : WebhookPayload) (t : HttpResult) :
    ((sendWebhook cfg p t).1.map (fun r => r.signature)
        = (sendWebhook cfg p t).1.map (fun r =>
            if cfg.secret = "" then none
            else some ("sha256=" ++ hexEncodeBytes (hmacSha256 (utf8Encode cfg.secret) r.body))))
    ∧ ((sendWebhook cfg p t).1.map (fun r => r.signature.isSome)
        = (sendWebhook cfg p t).1.map (fun _ => !(cfg.secret == "")))
    ∧ ((sendWebhook cfg p t).1.map (fun r => r.body)
        = if cfg.enabled = false ∨ cfg.url = "" then none
          else some (marshalWebhookPayload p))
    ∧ ((hexEncodeBytes (hmacSha256 (utf8Encode cfg.secret)
          (marshalWebhookPayload p))).toList.all (fun c => hexAlphabet.contains c) = true) := by
  refine ⟨?_, ?_, ?_, ?_⟩
  · by_cases hd : cfg.enabled = false ∨ cfg.url = ""
    · simp [sendWebhook, hd]
    · cases t with
      | failure msg => simp [sendWebhook, hd, generateWebhookSignature]
      | response code =>
          by_cases hc : code < 200 ∨ 300 ≤ code <;>
            simp [sendWebhook, hd, hc, generateWebhookSignature]
  · by_cases hd : cfg.enabled = false ∨ cfg.url = ""
    · simp [sendWebhook, hd]
    · by_cases hs : cfg.secret = ""
      · cases t with
        | failure msg => simp [sendWebhook, hd, hs]
        | response code =>
            by_cases hc : code < 200 ∨ 300 ≤ code <;> simp [sendWebhook, hd, hc, hs]
      · cases t with
        | failure msg => simp [sendWebhook, hd, hs]
        | response code =>
            by_cases hc : code < 200 ∨ 300 ≤ code <;> simp [sendWebhook, hd, hc, hs]
  · by_cases hd : cfg.enabled = false ∨ cfg.url = ""
    · simp [sendWebhook, hd]
    · cases t with
      | failure msg => simp [sendWebhook, hd]
      | response code =>
          by_cases hc : code < 200 ∨ 300 ≤ code <;> simp [sendWebhook, hd, hc]
  · exact hexEncodeBytes_lowercase (fun b hb => mem_hmacSha256_lt hb)

/-- Claim C7: `sendWebhook` is a no-op returning success when the channel
is disabled or has no URL; otherwise it issues the request and errors
exactly on transport failure or a response status outside 2xx. -/
theorem sendWebhook_skip_and_error (cfg : WebhookConfig) (p : WebhookPayload) (t : HttpResult) :
    ((cfg.enabled = false ∨ cfg.url = "") → sendWebhook cfg p t = (none, none))
    ∧ (cfg.enabled = true → cfg.url ≠ "" →
        ((sendWebhook cfg p t).1.isSome = true
          ∧ ((sendWebhook cfg p t).2 ≠ none ↔
              (∃ msg, t = HttpResult.failure msg)
                ∨ (∃ code, t = HttpResult.response code ∧ (code < 200 ∨ 300 ≤ code))))) := by
  constructor
  · intro hd
    simp [sendWebhook, hd]
  · intro hen hurl
    have hd : ¬(cfg.enabled = false ∨ cfg.url = "") := by simp [hen, hurl]
    cases t with
    | failure msg =>
        refine ⟨by simp [sendWebhook, hd], ?_⟩
        constructor
        · intro _
          exact Or.inl ⟨msg, rfl⟩
        · intro _
          simp [sendWebhook, hd]
    | response code =>
        by_cases hc : code < 200 ∨ 300 ≤ code
        · refine ⟨by simp [sendWebhook, hd, hc], ?_⟩
          constructor
          · intro _
            exact Or.inr ⟨code, rfl, hc⟩
          · intro _
            simp [sendWebhook, hd, hc]
        · refine ⟨by simp [sendWebhook, hd, hc], ?_⟩
          constructor
          · intro hne
            have : (sendWebhook cfg p (HttpResult.response code)).2 = none := by
              simp [sendWebhook, hd, hc]
            exact absurd this hne
          · rintro (⟨msg, hmsg⟩ | ⟨c, hcode, hrange⟩)
            · exact absurd hmsg (by simp)
            · injection hcode with hcc
              subst hcc
              exact absurd hrange hc

/-- Witness for C7: with the channel enabled and a URL set, a 500 response
from the webhook endpoint is reported as a delivery error. -/
theorem sendWebhook_skip_and_error_witness :
    sampleWebhookOn.enabled = true ∧ sampleWebhookOn.url ≠ ""
    ∧ ((sendWebhook sampleWebhookOn sampleAlertPayload (HttpResult.response 500)).1.isSome = true
        ∧ ((sendWebhook sampleWebhookOn sampleAlertPayload (HttpResult.response 500)).2 ≠ none ↔
            (∃ msg, HttpResult.response 500 = HttpResult.failure msg)
              ∨ (∃ code, HttpResult.response 500 = HttpResult.response code
                  ∧ (code < 200 ∨ 300 ≤ code)))) :=
  ⟨rfl, by decide,
    (sendWebhook_skip_and_error sampleWebhookOn sampleAlertPayload
      (HttpResult.response 500)).2 rfl (by decide)⟩

/-- Claim C8: `checkApplication` never probes a disabled application (no
HTTP request, no state change, no events); an enabled application is
probed exactly once per check, and the single outcome is classified:
expected status → recovery path, unexpected status → alert path with the
observed status and no error, transport error → alert path with status 0
and the error message. -/
theorem checkApplication_classification (m : Monitor) (app : ApplicationConfig)
    (p : ProbeResult) (now : String) (nowUnix : Int)
    (ee : Option String) (wt : HttpResult) :
    (app.enabled = false →
        checkApplication m app p now nowUnix ee wt
          = { monitor := m, events := [], logs := [], httpGets := 0 })
    ∧ (app.enabled = true → (checkApplication m app p now nowUnix ee wt).httpGets = 1)
    ∧ (app.enabled = true → ∀ code, p = ProbeResult.ok code → code = app.expectedCode →
        (checkApplication m app p now nowUnix ee wt).monitor
            = (sendRecoveryNotice m app now nowUnix ee wt).monitor
          ∧ (checkApplication m app p now nowUnix ee wt).events
            = (sendRecoveryNotice m app now nowUnix ee wt).events)
    ∧ (app.enabled = true → ∀ code, p = ProbeResult.ok code → code ≠ app.expectedCode →
        (checkApplication m app p now nowUnix ee wt).monitor
            = (sendAlert m app code none now nowUnix ee wt).monitor
          ∧ (checkApplication m app p now nowUnix ee wt).events
            = (sendAlert m app code none now nowUnix ee wt).events)
    ∧ (app.enabled = true → ∀ msg, p = ProbeResult.transportError msg →
        (checkApplication m app p now nowUnix ee wt).monitor
            = (sendAlert m app 0 (some msg) now nowUnix ee wt).monitor
          ∧ (checkApplication m app p now nowUnix ee wt).events
            = (sendAlert m app 0 (some msg) now nowUnix ee wt).events) := by
  refine ⟨?_, ?_, ?_, ?_, ?_⟩
  · intro he
    simp [checkApplication, he]
  · intro hen
    cases p with
    | transportError msg => simp [checkApplication, hen]
    | ok code =>
        by_cases hs : code = app.expectedCode <;> simp [checkApplication, hen, hs]
  · intro hen code hp hs
    subst hp
    constructor <;> simp [checkApplication, hen, hs]
  · intro hen code hp hs
    subst hp
    constructor <;> simp [checkApplication, hen, hs]
  · intro hen msg hp
    subst hp
    constructor <;> simp [checkApplication, hen]

/-- Witness for C8: a disabled application's check is a full no-op, and an
enabled application's unexpected status routes to the alert path. -/
theorem checkApplication_classification_witness :
    sampleAppOff.enabled = false
    ∧ checkApplication (sampleMonitorAt 0) sampleAppOff (ProbeResult.ok 500) "T" 0 none
        (HttpResult.response 200)
      = { monitor := sampleMonitorAt 0, events := [], logs := [], httpGets := 0 }
    ∧ ((checkApplication (sampleMonitorAt 0) sampleApp (ProbeResult.ok 500) "T" 0 none
          (HttpResult.response 200)).events
        = (sendAlert (sampleMonitorAt 0) sampleApp 500 none "T" 0 none
          (HttpResult.response 200)).events) :=
  ⟨rfl,
    (checkApplication_classification (sampleMonitorAt 0) sampleAppOff (ProbeResult.ok 500)
      "T" 0 none (HttpResult.response 200)).1 rfl,
    ((checkApplication_classification (sampleMonitorAt 0) sampleApp (ProbeResult.ok 500)
      "T" 0 none (HttpResult.response 200)).2.2.2.1 rfl 500 rfl (by decide)).2⟩

/-- Claim C10: every Recovery webhook payload carries `status_code = 200`
and `failure_count = 0`, whatever the application's expected status code
was (the payload still reports that expected code unchanged). -/
theorem recovery_payload_constants (m : Monitor) (app : ApplicationConfig)
    (now : String) (nowUnix : Int) (ee : Option String) (wt : HttpResult)
    (s b : String) (pl : WebhookPayload)
    (hmem : NotificationEvent.recovery s b pl
      ∈ (sendRecoveryNotice m app now nowUnix ee wt).events) :
    pl.statusCode = 200 ∧ pl.failureCount = 0 ∧ pl.event = "application_recovery"
      ∧ pl.expectedCode = app.expectedCode := by
  by_cases h : m.alertTracker app.name < 3
  · simp [sendRecoveryNotice, h] at hmem
  · simp [sendRecoveryNotice, h] at hmem
    obtain ⟨hs, hb, hpl⟩ := hmem
    subst hpl
    exact ⟨rfl, rfl, rfl, rfl⟩

/-- Witness for C10: a recovery of the application expecting status 301
still reports `status_code = 200` and `failure_count = 0`. -/
theorem recovery_payload_constants_witness :
    (NotificationEvent.recovery sampleRecoverySubject sampleRecoveryBody sampleRecoveryPayload
        ∈ (sendRecoveryNotice (sampleMonitorAt 3) sampleApp301 "T" 0 none
          (HttpResult.response 301)).events)
    ∧ (sampleRecoveryPayload.statusCode = 200 ∧ sampleRecoveryPayload.failureCount = 0
        ∧ sampleRecoveryPayload.event = "application_recovery"
        ∧ sampleRecoveryPayload.expectedCode = sampleApp301.expectedCode) :=
  ⟨by decide,
    recovery_payload_constants (sampleMonitorAt 3) sampleApp301 "T" 0 none
      (HttpResult.response 301) sampleRecoverySubject sampleRecoveryBody
      sampleRecoveryPayload (by decide)⟩

/-- Claim C6: every Alert webhook payload has event `application_down` and
`failure_count = 2`; on a status mismatch its `status_code` is the
observed status, its `error` is empty and the `error` key is omitted from
the marshalled JSON; on a transport failure its `status_code` is 0 and its
`error` is the transport error's message. -/
theorem alert_payload_fields (m : Monitor) (app : ApplicationConfig)
    (p : ProbeResult) (now : String) (nowUnix : Int)
    (ee : Option String) (wt : HttpResult) (s b : String) (pl : WebhookPayload)
    (hmem : NotificationEvent.alert s b pl
      ∈ (checkApplication m app p now nowUnix ee wt).events) :
    pl.event = "application_down" ∧ pl.failureCount = 2
    ∧ (∀ msg, p = ProbeResult.transportError msg → pl.statusCode = 0 ∧ pl.error = msg)
    ∧ (∀ code, p = ProbeResult.ok code → pl.statusCode = code ∧ pl.error = ""
        ∧ "error" ∉ (webhookPayloadFields pl).map Prod.fst) := by
  by_cases he : app.enabled = false
  · simp [checkApplication, he] at hmem
  · cases p with
    | transportError msg =>
        by_cases h2 : m.alertTracker app.name + 1 = 2
        · simp [checkApplication, he, sendAlert, h2] at hmem
          obtain ⟨hs, hb, hpl⟩ := hmem
          subst hpl
          refine ⟨rfl, rfl, ?_, ?_⟩
          · intro msg' hmsg
            injection hmsg with hm
            subst hm
            exact ⟨rfl, rfl⟩
          · intro code hcode
            exact absurd hcode (by simp)
        · simp [checkApplication, he, sendAlert, h2] at hmem
    | ok code0 =>
        by_cases hs0 : code0 = app.expectedCode
        · by_cases h3 : m.alertTracker app.name < 3 <;>
            simp [checkApplication, he, hs0, sendRecoveryNotice, h3] at hmem
        · by_cases h2 : m.alertTracker app.name + 1 = 2
          · simp [checkApplication, he, hs0, sendAlert, h2] at hmem
            obtain ⟨hs, hb, hpl⟩ := hmem
            subst hpl
            refine ⟨rfl, rfl, ?_, ?_⟩
            · intro msg hmsg
              exact absurd hmsg (by simp)
            · intro code hcode
              injection hcode with hc
              subst hc
              refine ⟨rfl, rfl, ?_⟩
              simp [webhookPayloadFields]
          · simp [checkApplication, he, hs0, sendAlert, h2] at hmem

set_option maxRecDepth 8192 in
/-- Witness for C6: the alert emitted on a second consecutive status-500
response has event `application_down`, `failure_count = 2`,
`status_code = 500`, empty `error`, and no `error` key in the JSON. -/
theorem alert_payload_fields_witness :
    (NotificationEvent.alert sampleAlertSubject sampleAlertBody sampleAlertPayload
        ∈ (checkApplication (sampleMonitorAt 1) sampleApp (ProbeResult.ok 500) "T" 0 none
          (HttpResult.response 200)).events)
    ∧ (sampleAlertPayload.event = "application_down" ∧ sampleAlertPayload.failureCount = 2
        ∧ sampleAlertPayload.statusCode = 500 ∧ sampleAlertPayload.error = ""
        ∧ "error" ∉ (webhookPayloadFields sampleAlertPayload).map Prod.fst) :=
  ⟨by decide, by
    have h := alert_payload_fields (sampleMonitorAt 1) sampleApp (ProbeResult.ok 500) "T" 0
      none (HttpResult.response 200) sampleAlertSubject sampleAlertBody sampleAlertPayload
      (by decide)
    exact ⟨h.1, h.2.1, (h.2.2.2 500 rfl).1, (h.2.2.2 500 rfl).2.1, (h.2.2.2 500 rfl).2.2⟩⟩

/-- Claim C2: along any run of consecutive non-healthy outcomes of one
application at most one Alert is emitted, however long the run; in
particular five consecutive failures from a fresh counter yield per-check
alert counts `[0, 1, 0, 0, 0]` — one Alert at the second failure, none at
the third, fourth or fifth. -/
theorem run_at_most_one_alert (m : Monitor) (app : ApplicationConfig)
    (inputs : List CheckInput) (i1 i2 i3 i4 i5 : CheckInput) :
    ((∀ i ∈ inputs, isHealthyOutcome app i.probe = false) →
        countAlerts (runSequence m app inputs).2 ≤ 1)
    ∧ (app.enabled = true → m.alertTracker app.name = 0 →
        (∀ i ∈ [i1, i2, i3, i4, i5], isHealthyOutcome app i.probe = false) →
        (stepEvents m app [i1, i2, i3, i4, i5]).map countAlerts = [0, 1, 0, 0, 0]) := by
  constructor
  · exact fun hall => runSequence_at_most_one app inputs m hall
  · intro hen h0 hall
    have he : ¬app.enabled = false := by simp [hen]
    have hu1 : isHealthyOutcome app i1.probe = false := hall i1 (by simp)
    have hu2 : isHealthyOutcome app i2.probe = false := hall i2 (by simp)
    have hu3 : isHealthyOutcome app i3.probe = false := hall i3 (by simp)
    have hu4 : isHealthyOutcome app i4.probe = false := hall i4 (by simp)
    have hu5 : isHealthyOutcome app i5.probe = false := hall i5 (by simp)
    simp only [stepEvents, List.map_cons, List.map_nil]
    generalize hg1 : checkApplication m app i1.probe i1.now i1.nowUnix i1.emailErr
      i1.webhookTransport = r1
    have e1 : countAlerts r1.events = 0 := by
      rw [← hg1, checkApplication_countAlerts]
      simp [he, hu1, h0]
    have tr1 : r1.monitor.alertTracker app.name = 1 := by
      rw [← hg1, checkApplication_tracker]
      simp [he, hu1, h0, failStep]
    generalize hg2 : checkApplication r1.monitor app i2.probe i2.now i2.nowUnix i2.emailErr
      i2.webhookTransport = r2
    have e2 : countAlerts r2.events = 1 := by
      rw [← hg2, checkApplication_countAlerts]
      simp [he, hu2, tr1]
    have tr2 : r2.monitor.alertTracker app.name = 3 := by
      rw [← hg2, checkApplication_tracker]
      simp [he, hu2, tr1, failStep]
    generalize hg3 : checkApplication r2.monitor app i3.probe i3.now i3.nowUnix i3.emailErr
      i3.webhookTransport = r3
    have e3 : countAlerts r3.events = 0 := by
      rw [← hg3, checkApplication_countAlerts]
      simp [he, hu3, tr2]
    have tr3 : r3.monitor.alertTracker app.name = 4 := by
      rw [← hg3, checkApplication_tracker]
      simp [he, hu3, tr2, failStep]
    generalize hg4 : checkApplication r3.monitor app i4.probe i4.now i4.nowUnix i4.emailErr
      i4.webhookTransport = r4
    have e4 : countAlerts r4.events = 0 := by
      rw [← hg4, checkApplication_countAlerts]
      simp [he, hu4, tr3]
    have tr4 : r4.monitor.alertTracker app.name = 5 := by
      rw [← hg4, checkApplication_tracker]
      simp [he, hu4, tr3, failStep]
    generalize hg5 : checkApplication r4.monitor app i5.probe i5.now i5.nowUnix i5.emailErr
      i5.webhookTransport = r5
    have e5 : countAlerts r5.events = 0 := by
      rw [← hg5, checkApplication_countAlerts]
      simp [he, hu5, tr4]
    rw [e1, e2, e3, e4, e5]

/-- Witness for C2: five consecutive status-500 responses against a fresh
counter produce per-check alert counts `[0, 1, 0, 0, 0]` and at most one
alert in total. -/
theorem run_at_most_one_alert_witness :
    (∀ i ∈ List.replicate 5 (sampleInput (ProbeResult.ok 500)),
        isHealthyOutcome sampleApp i.probe = false)
    ∧ countAlerts (runSequence (sampleMonitorAt 0) sampleApp
        (List.replicate 5 (sampleInput (ProbeResult.ok 500)))).2 ≤ 1
    ∧ (stepEvents (sampleMonitorAt 0) sampleApp
        (List.replicate 5 (sampleInput (ProbeResult.ok 500)))).map countAlerts
      = [0, 1, 0, 0, 0] :=
  ⟨by decide,
    (run_at_most_one_alert (sampleMonitorAt 0) sampleApp
      (List.replicate 5 (sampleInput (ProbeResult.ok 500)))
      (sampleInput (ProbeResult.ok 500)) (sampleInput (ProbeResult.ok 500))
      (sampleInput (ProbeResult.ok 500)) (sampleInput (ProbeResult.ok 500))
      (sampleInput (ProbeResult.ok 500))).1 (by decide),
    (run_at_most_one_alert (sampleMonitorAt 0) sampleApp
      (List.replicate 5 (sampleInput (ProbeResult.ok 500)))
      (sampleInput (ProbeResult.ok 500)) (sampleInput (ProbeResult.ok 500))
      (sampleInput (ProbeResult.ok 500)) (sampleInput (ProbeResult.ok 500))
      (sampleInput (ProbeResult.ok 500))).2 rfl rfl (by decide)⟩

/-- Claim C9: from the initial state, after any sequence of checks of one
application the tracked counter never rests at exactly 2 — it is either at
most 1 or at least 3 — and it is at least 3 exactly when an Alert has been
attempted in the current failure episode. -/
theorem tracker_never_rests_at_two (cfg : Config) (app : ApplicationConfig)
    (inputs : List CheckInput) :
    ((runWithEpisode (mkMonitor cfg) app false inputs).1.alertTracker app.name ≠ 2)
    ∧ ((runWithEpisode (mkMonitor cfg) app false inputs).1.alertTracker app.name ≤ 1
        ∨ 3 ≤ (runWithEpisode (mkMonitor cfg) app false inputs).1.alertTracker app.name)
    ∧ (3 ≤ (runWithEpisode (mkMonitor cfg) app false inputs).1.alertTracker app.name
        ↔ (runWithEpisode (mkMonitor cfg) app false inputs).2 = true) := by
  have h := runWithEpisode_inv app inputs (mkMonitor cfg) false
    (Or.inl ⟨by simp [mkMonitor], rfl⟩)
  rcases h with ⟨h1, h2⟩ | ⟨h1, h2⟩
  · refine ⟨by omega, Or.inl h1, ?_⟩
    constructor
    · intro h3
      exact absurd h3 (by omega)
    · intro hg
      rw [h2] at hg
      exact absurd hg (by simp)
  · refine ⟨by omega, Or.inr h1, ?_⟩
    exact ⟨fun _ => h2, fun _ => h1⟩

/-- Witness for C5: the signature characterisation instantiated at the
sample webhook configuration and payload. -/
theorem webhook_signature_spec_witness :
    ((sendWebhook sampleWebhookOn sampleAlertPayload (HttpResult.response 200)).1.map
        (fun r => r.signature)
      = (sendWebhook sampleWebhookOn sampleAlertPayload (HttpResult.response 200)).1.map
        (fun r =>
          if sampleWebhookOn.secret = "" then none
          else some ("sha256=" ++ hexEncodeBytes
            (hmacSha256 (utf8Encode sampleWebhookOn.secret) r.body))))
    ∧ ((sendWebhook sampleWebhookOn sampleAlertPayload (HttpResult.response 200)).1.map
        (fun r => r.signature.isSome)
      = (sendWebhook sampleWebhookOn sampleAlertPayload (HttpResult.response 200)).1.map
        (fun _ => !(sampleWebhookOn.secret == "")))
    ∧ ((sendWebhook sampleWebhookOn sampleAlertPayload (HttpResult.response 200)).1.map
        (fun r => r.body)
      = if sampleWebhookOn.enabled = false ∨ sampleWebhookOn.url = "" then none
        else some (marshalWebhookPayload sampleAlertPayload))
    ∧ ((hexEncodeBytes (hmacSha256 (utf8Encode sampleWebhookOn.secret)
        (marshalWebhookPayload sampleAlertPayload))).toList.all
        (fun c => hexAlphabet.contains c) = true) :=
  webhook_signature_spec sampleWebhookOn sampleAlertPayload (HttpResult.response 200)

/-- Witness for C9: the counter invariant instantiated at the sample
configuration and a two-failure run. -/
theorem tracker_never_rests_at_two_witness :
    ((runWithEpisode (mkMonitor sampleConfig) sampleApp false
        [sampleInput (ProbeResult.ok 500), sampleInput (ProbeResult.ok 500)]).1.alertTracker
        sampleApp.name ≠ 2)
    ∧ ((runWithEpisode (mkMonitor sampleConfig) sampleApp false
        [sampleInput (ProbeResult.ok 500), sampleInput (ProbeResult.ok 500)]).1.alertTracker
        sampleApp.name ≤ 1
      ∨ 3 ≤ (runWithEpisode (mkMonitor sampleConfig) sampleApp false
        [sampleInput (ProbeResult.ok 500), sampleInput (ProbeResult.ok 500)]).1.alertTracker
        sampleApp.name)
    ∧ (3 ≤ (runWithEpisode (mkMonitor sampleConfig) sampleApp false
        [sampleInput (ProbeResult.ok 500), sampleInput (ProbeResult.ok 500)]).1.alertTracker
        sampleApp.name
      ↔ (runWithEpisode (mkMonitor sampleConfig) sampleApp false
        [sampleInput (ProbeResult.ok 500), sampleInput (ProbeResult.ok 500)]).2 = true) :=
  tracker_never_rests_at_two sampleConfig sampleApp
    [sampleInput (ProbeResult.ok 500), sampleInput (ProbeResult.ok 500)]
